import Mathlib

/-!
Shallow embedding of app.py, a small Flask backend that forwards image
upload / list / delete requests to the Cloudinary provider.

Strings model Python str values; Python dictionaries whose keys are
statically known are modelled as structures with Option fields: a bracket
access of a key raises KeyError when the field is none, while a .get access
with a default returns the default.  The external provider is an oracle
passed to each handler as an Except value whose error constructor models a
raised exception carrying its message, and the upload handler additionally
returns the list of provider calls it performed, so that properties such as
performing no provider call, or exactly one, are stated directly.
-/

/-- A JSON value, as produced by the jsonify calls of app.py. -/
inductive JVal where
  | str (s : String)
  | bool (b : Bool)
  | nat (n : Nat)
  | arr (xs : List JVal)
  | obj (fields : List (String × JVal))

/-- An HTTP response: status code plus JSON body. -/
structure HttpResponse where
  status : Nat
  body : JVal

/-- The uniform JSON error body of app.py: an object with a single
error field holding a message string. -/
def errBody (msg : String) : JVal := .obj [("error", .str msg)]

/-- Whether a body is exactly an object with a single error field holding a
string, and nothing else. -/
def isErrorBody : JVal → Bool
  | .obj [("error", .str _)] => true
  | _ => false

/-- The Python membership test of the dot character in the filename. -/
def containsDot (filename : String) : Bool := filename.toList.contains '.'

/-- The Python right-split of the filename at the last dot, keeping the
second part: the substring after the last dot. -/
def extAfterLastDot (filename : String) : String :=
  ⟨(filename.toList.reverse.takeWhile (fun c => c != '.')).reverse⟩

/-- The Python lower method, as applied to file extensions. -/
def lowerStr (s : String) : String := ⟨s.toList.map Char.toLower⟩

/-- ALLOWED_EXTENSIONS from app.py: png, jpg, jpeg, gif, webp. -/
def ALLOWED_EXTENSIONS : List String := ["png", "jpg", "jpeg", "gif", "webp"]

/-- allowed_file from app.py: the filename contains a dot, and the part
after the last dot, lowercased, is in ALLOWED_EXTENSIONS. -/
def allowed_file (filename : String) : Bool :=
  containsDot filename && ALLOWED_EXTENSIONS.contains (lowerStr (extAfterLastDot filename))

/-- A Werkzeug FileStorage: a filename plus an opaque byte stream. -/
structure FileStorage where
  filename : String
  stream : List Nat

/-- An upload request: request.files, a multidict from field names to files. -/
structure UploadRequest where
  files : List (String × FileStorage)

/-- The arguments app.py passes to the upload function of the provider SDK. -/
structure UploadCall where
  file : FileStorage
  folder : String
  resource_type : String
  transformation : List (String × String)

/-- The call app.py builds for a given file: folder capturas, resource type
auto, and a transformation pipeline of a quality auto:good step followed by
a fetch_format auto step. -/
def uploadCallFor (f : FileStorage) : UploadCall :=
  { file := f
    folder := "capturas"
    resource_type := "auto"
    transformation := [("quality", "auto:good"), ("fetch_format", "auto")] }

/-- The upload response of the provider, a dictionary; the handler reads the
keys secure_url, public_id and created_at, and a missing key raises KeyError. -/
structure ProviderUploadResp where
  secure_url : Option String
  public_id : Option String
  created_at : Option String

/-- Formatting of the upload outcome inside the try block: the error case is
the except clause returning the error body with status 500; on ok, the
handler reads public_id first (for the logging call), then builds the JSON
body from secure_url, public_id and created_at; a missing key raises
KeyError, caught by the same except clause. -/
def uploadRespond : Except String ProviderUploadResp → HttpResponse
  | .error e => ⟨500, errBody e⟩
  | .ok result =>
    match result.public_id with
    | none => ⟨500, errBody "KeyError: public_id"⟩
    | some p =>
      match result.secure_url with
      | none => ⟨500, errBody "KeyError: secure_url"⟩
      | some u =>
        match result.created_at with
        | none => ⟨500, errBody "KeyError: created_at"⟩
        | some c =>
          ⟨200, .obj [("success", .bool true), ("url", .str u),
                      ("public_id", .str p), ("created_at", .str c)]⟩

/-- The upload handler from app.py.  Returns the HTTP response together with
the list of provider upload calls performed. -/
def upload (req : UploadRequest)
    (provider : UploadCall → Except String ProviderUploadResp) :
    HttpResponse × List UploadCall :=
  match req.files.lookup "file" with
  | none => (⟨400, errBody "No se encontró el archivo"⟩, [])
  | some file =>
    if file.filename = "" then
      (⟨400, errBody "Nombre de archivo vacío"⟩, [])
    else if allowed_file file.filename = false then
      (⟨400, errBody "Tipo de archivo no permitido"⟩, [])
    else
      (uploadRespond (provider (uploadCallFor file)), [uploadCallFor file])

/-- The MAX_CONTENT_LENGTH configuration from app.py: 16 * 1024 * 1024. -/
def MAX_CONTENT_LENGTH : Nat := 16 * 1024 * 1024

/-- The 413 error handler request_entity_too_large from app.py. -/
def request_entity_too_large : HttpResponse :=
  ⟨413, errBody "El archivo es demasiado grande. Máximo 16MB"⟩

/-- Modelled from the spec: the framework-level enforcement of
MAX_CONTENT_LENGTH is performed by Flask, not by code in app.py; per the
spec, a request body larger than 16 MiB is rejected with 413 before any
file-extension validation runs, and the limit is enforced before handler
logic executes.  The rejection is rendered through the 413 error handler
request_entity_too_large, which is in app.py. -/
def dispatchUpload (contentLength : Nat) (req : UploadRequest)
    (provider : UploadCall → Except String ProviderUploadResp) :
    HttpResponse × List UploadCall :=
  if MAX_CONTENT_LENGTH < contentLength then (request_entity_too_large, [])
  else upload req provider

/-- One resource dictionary in the listing response of the provider. -/
structure Resource where
  secure_url : Option String
  public_id : Option String
  created_at : Option String
  format : Option String

/-- The listing response of the provider; the handler reads its
resources key. -/
structure ListResp where
  resources : List Resource

/-- The image summary built by the listing comprehension of app.py. -/
structure ImageSummary where
  url : String
  public_id : String
  created_at : String
  format : String

/-- JSON rendering of an ImageSummary, matching the dictionary built in the
listing comprehension of app.py. -/
def ImageSummary.toJVal (i : ImageSummary) : JVal :=
  .obj [("url", .str i.url), ("public_id", .str i.public_id),
        ("created_at", .str i.created_at), ("format", .str i.format)]

/-- Projection of one listing resource: the bracket accesses of secure_url
and then public_id raise KeyError when missing (modelled by error), while
the .get accesses of created_at and format default to the empty string. -/
def projectResource (res : Resource) : Except String ImageSummary :=
  match res.secure_url with
  | none => .error "KeyError: secure_url"
  | some u =>
    match res.public_id with
    | none => .error "KeyError: public_id"
    | some p => .ok ⟨u, p, res.created_at.getD "", res.format.getD ""⟩

/-- The listing comprehension: projects resources left to right, the first
KeyError aborting the whole list, so no partial list is produced. -/
def projectResources : List Resource → Except String (List ImageSummary)
  | [] => .ok []
  | r :: rs =>
    match projectResource r with
    | .error e => .error e
    | .ok i =>
      match projectResources rs with
      | .error e => .error e
      | .ok is => .ok (i :: is)

/-- The list_images handler from app.py, parameterised by the outcome of
the provider resources call (error models a raised exception). -/
def list_images (providerResult : Except String ListResp) : HttpResponse :=
  match providerResult with
  | .error e => ⟨500, errBody e⟩
  | .ok resp =>
    match projectResources resp.resources with
    | .error e => ⟨500, errBody e⟩
    | .ok images =>
      ⟨200, .obj [("success", .bool true),
                  ("images", .arr (images.map ImageSummary.toJVal)),
                  ("total", .nat images.length)]⟩

/-- The destroy response of the provider: its .get access of the result key
yields an optional status string. -/
structure DestroyResp where
  result : Option String

/-- The delete_image handler from app.py; the provider oracle maps the
identifier to the outcome of the destroy call (error models a raised
exception). -/
def delete_image (public_id : String)
    (provider : String → Except String DestroyResp) : HttpResponse :=
  match provider public_id with
  | .error e => ⟨500, errBody e⟩
  | .ok result =>
    if result.result == some "ok" then
      ⟨200, .obj [("success", .bool true), ("message", .str "Imagen eliminada")]⟩
    else
      ⟨400, errBody "No se pudo eliminar la imagen"⟩

/-- A filename passing allowed_file is nonempty, since it contains a dot. -/
theorem allowed_file_ne_empty {s : String} (h : allowed_file s = true) : s ≠ "" := by
  intro h0
  rw [h0] at h
  exact absurd h (by decide)

/-- Claim C1: for every upload request whose file field is absent, whose
filename is the empty string, or whose filename fails extension validation
(no dot, or extension outside the allowed set), the upload handler returns
HTTP 400 with an error-string body and performs no provider call. -/
theorem upload_invalid_returns_400 (req : UploadRequest)
    (provider : UploadCall → Except String ProviderUploadResp)
    (h : ∀ f, req.files.lookup "file" = some f →
      f.filename = "" ∨ allowed_file f.filename = false) :
    (upload req provider).1.status = 400 ∧
    isErrorBody (upload req provider).1.body = true ∧
    (upload req provider).2 = [] := by
  cases hf : req.files.lookup "file" with
  | none =>
    simp [upload, hf, errBody, isErrorBody]
  | some f =>
    rcases h f hf with he | ha
    · simp [upload, hf, he, errBody, isErrorBody]
    · by_cases he : f.filename = "" <;>
        simp [upload, hf, he, ha, errBody, isErrorBody]

/-- Witness for C1: uploading document.pdf yields 400, an error body, and
no provider call. -/
theorem upload_invalid_returns_400_witness :
    (upload ⟨[("file", ⟨"document.pdf", [0]⟩)]⟩ (fun _ => .error "boom")).1.status = 400 ∧
    isErrorBody (upload ⟨[("file", ⟨"document.pdf", [0]⟩)]⟩ (fun _ => .error "boom")).1.body = true ∧
    (upload ⟨[("file", ⟨"document.pdf", [0]⟩)]⟩ (fun _ => .error "boom")).2 = [] :=
  upload_invalid_returns_400 _ _ (by
    intro f hf
    have hf' : some (⟨"document.pdf", [0]⟩ : FileStorage) = some f := hf
    injection hf' with h0
    rw [← h0]
    right
    decide)

/-- Claim C2: for every upload request whose filename passes validation, the
upload handler invokes the provider exactly once, with the file, folder
capturas, resource type auto, and the transformation pipeline of automatic
quality and automatic format selection. -/
theorem upload_valid_calls_provider_once (req : UploadRequest) (f : FileStorage)
    (provider : UploadCall → Except String ProviderUploadResp)
    (hf : req.files.lookup "file" = some f)
    (ha : allowed_file f.filename = true) :
    (upload req provider).2 =
      [{ file := f
         folder := "capturas"
         resource_type := "auto"
         transformation := [("quality", "auto:good"), ("fetch_format", "auto")] }] := by
  simp [upload, hf, allowed_file_ne_empty ha, ha, uploadCallFor]

/-- Witness for C2: uploading photo.JPG (allowed case-insensitively) calls
the provider exactly once with the fixed parameters. -/
theorem upload_valid_calls_provider_once_witness :
    (upload ⟨[("file", ⟨"photo.JPG", [7]⟩)]⟩ (fun _ => .error "x")).2 =
      [{ file := ⟨"photo.JPG", [7]⟩
         folder := "capturas"
         resource_type := "auto"
         transformation := [("quality", "auto:good"), ("fetch_format", "auto")] }] :=
  upload_valid_calls_provider_once _ ⟨"photo.JPG", [7]⟩ _ rfl (by decide)

/-- Claim C3: for every valid upload on which the provider call succeeds,
the handler returns HTTP 200 with success true and url, public_id and
created_at copied verbatim from the secure_url, public_id and created_at
fields of the provider response. -/
theorem upload_success_response (req : UploadRequest) (f : FileStorage)
    (provider : UploadCall → Except String ProviderUploadResp)
    (resp : ProviderUploadResp) (u p c : String)
    (hf : req.files.lookup "file" = some f)
    (ha : allowed_file f.filename = true)
    (hp : provider (uploadCallFor f) = .ok resp)
    (hu : resp.secure_url = some u)
    (hpi : resp.public_id = some p)
    (hc : resp.created_at = some c) :
    (upload req provider).1 =
      ⟨200, .obj [("success", .bool true), ("url", .str u),
                  ("public_id", .str p), ("created_at", .str c)]⟩ := by
  simp [upload, hf, allowed_file_ne_empty ha, ha, uploadRespond, hp, hu, hpi, hc]

/-- Witness for C3: a successful provider response is forwarded verbatim. -/
theorem upload_success_response_witness :
    (upload ⟨[("file", ⟨"photo.JPG", [7]⟩)]⟩
        (fun _ => .ok ⟨some "https://res.example/a.jpg", some "capturas/a", some "2026-01-01T00:00:00Z"⟩)).1 =
      ⟨200, .obj [("success", .bool true), ("url", .str "https://res.example/a.jpg"),
                  ("public_id", .str "capturas/a"), ("created_at", .str "2026-01-01T00:00:00Z")]⟩ :=
  upload_success_response _ ⟨"photo.JPG", [7]⟩ _
    ⟨some "https://res.example/a.jpg", some "capturas/a", some "2026-01-01T00:00:00Z"⟩
    _ _ _ rfl (by decide) rfl rfl rfl rfl

/-- Claim C6: for every valid upload on which the provider call raises an
exception, the handler returns HTTP 500 with a body that is exactly an
object carrying the error message of the exception, and nothing else. -/
theorem upload_provider_error_500 (req : UploadRequest) (f : FileStorage)
    (provider : UploadCall → Except String ProviderUploadResp) (e : String)
    (hf : req.files.lookup "file" = some f)
    (ha : allowed_file f.filename = true)
    (hp : provider (uploadCallFor f) = .error e) :
    (upload req provider).1 = ⟨500, .obj [("error", .str e)]⟩ := by
  simp [upload, hf, allowed_file_ne_empty ha, ha, uploadRespond, hp, errBody]

/-- Witness for C6: a provider exception with message boom yields 500 and
an error body carrying boom verbatim. -/
theorem upload_provider_error_500_witness :
    (upload ⟨[("file", ⟨"photo.JPG", [7]⟩)]⟩ (fun _ => .error "boom")).1 =
      ⟨500, .obj [("error", .str "boom")]⟩ :=
  upload_provider_error_500 _ ⟨"photo.JPG", [7]⟩ _ "boom" rfl (by decide) rfl

/-- Claim C4: for every successful (well-formed) provider listing response,
the list handler returns HTTP 200 with success true and a total equal to
the length of the images array, one summary per resource. -/
theorem list_images_total (rs : List Resource) (imgs : List ImageSummary)
    (h : projectResources rs = .ok imgs) :
    list_images (.ok ⟨rs⟩) =
      ⟨200, .obj [("success", .bool true),
                  ("images", .arr (imgs.map ImageSummary.toJVal)),
                  ("total", .nat (imgs.map ImageSummary.toJVal).length)]⟩ := by
  simp [list_images, h, List.length_map]

/-- Witness for C4: a one-resource listing yields 200 with total 1. -/
theorem list_images_total_witness :
    list_images (.ok ⟨[⟨some "https://res.example/a.jpg", some "capturas/a", none, none⟩]⟩) =
      ⟨200, .obj [("success", .bool true),
                  ("images", .arr ([(⟨"https://res.example/a.jpg", "capturas/a", "", ""⟩ : ImageSummary)].map ImageSummary.toJVal)),
                  ("total", .nat ([(⟨"https://res.example/a.jpg", "capturas/a", "", ""⟩ : ImageSummary)].map ImageSummary.toJVal).length)]⟩ :=
  list_images_total _ [⟨"https://res.example/a.jpg", "capturas/a", "", ""⟩] rfl

/-- Claim C7: each listing resource with the two required keys present is
projected into a summary taking url and public_id from secure_url and
public_id, and defaulting created_at and format to the empty string when
those keys are absent. -/
theorem projectResource_defaults (res : Resource) (u p : String)
    (hu : res.secure_url = some u) (hp : res.public_id = some p) :
    projectResource res = .ok ⟨u, p, res.created_at.getD "", res.format.getD ""⟩ ∧
    (res.created_at = none →
      projectResource res = .ok ⟨u, p, "", res.format.getD ""⟩) ∧
    (res.format = none →
      projectResource res = .ok ⟨u, p, res.created_at.getD "", ""⟩) := by
  refine ⟨by simp [projectResource, hu, hp], ?_, ?_⟩
  · intro hc
    simp [projectResource, hu, hp, hc]
  · intro hf
    simp [projectResource, hu, hp, hf]

/-- Witness for C7: a resource with absent created_at and format projects to
a summary with empty strings in those fields. -/
theorem projectResource_defaults_witness :
    projectResource ⟨some "https://res.example/a.jpg", some "capturas/a", none, none⟩ =
      .ok ⟨"https://res.example/a.jpg", "capturas/a", "", ""⟩ :=
  (projectResource_defaults ⟨some "https://res.example/a.jpg", some "capturas/a", none, none⟩
    "https://res.example/a.jpg" "capturas/a" rfl rfl).1

/-- A listing with some resource missing secure_url or public_id projects to
an error (a KeyError aborts the comprehension). -/
theorem projectResources_error_of_missing (rs : List Resource)
    (h : ∃ r ∈ rs, r.secure_url = none ∨ r.public_id = none) :
    ∃ e, projectResources rs = .error e := by
  induction rs with
  | nil => simp at h
  | cons r rs ih =>
    rcases h with ⟨r0, hmem, hbad⟩
    rcases List.mem_cons.mp hmem with rfl | hmem
    · rcases hbad with h1 | h2
      · exact ⟨"KeyError: secure_url", by simp [projectResources, projectResource, h1]⟩
      · cases hu : r0.secure_url with
        | none =>
          exact ⟨"KeyError: secure_url", by simp [projectResources, projectResource, hu]⟩
        | some u =>
          exact ⟨"KeyError: public_id", by simp [projectResources, projectResource, hu, h2]⟩
    · cases hpr : projectResource r with
      | error e => exact ⟨e, by simp [projectResources, hpr]⟩
      | ok i =>
        rcases ih ⟨r0, hmem, hbad⟩ with ⟨e, he⟩
        exact ⟨e, by simp [projectResources, hpr, he]⟩

/-- Claim C10: for every provider listing response in which some resource
lacks secure_url or public_id, the list handler returns HTTP 500 with an
error-string body and no partial list. -/
theorem list_images_missing_key_500 (rs : List Resource)
    (h : ∃ r ∈ rs, r.secure_url = none ∨ r.public_id = none) :
    (list_images (.ok ⟨rs⟩)).status = 500 ∧
    isErrorBody (list_images (.ok ⟨rs⟩)).body = true := by
  rcases projectResources_error_of_missing rs h with ⟨e, he⟩
  simp [list_images, he, errBody, isErrorBody]

/-- Witness for C10: one resource without secure_url aborts the listing
with a 500 error body. -/
theorem list_images_missing_key_500_witness :
    (list_images (.ok ⟨[⟨none, some "capturas/a", none, none⟩]⟩)).status = 500 ∧
    isErrorBody (list_images (.ok ⟨[⟨none, some "capturas/a", none, none⟩]⟩)).body = true :=
  list_images_missing_key_500 _
    ⟨⟨none, some "capturas/a", none, none⟩, List.mem_singleton.mpr rfl, Or.inl rfl⟩

/-- Claim C5: the delete handler returns 200 with success true and a message
when the provider reports status ok, 400 with an error-string body for any
other reported status, and 500 with the error message when the provider
call raises an exception. -/
theorem delete_image_status (pid : String)
    (provider : String → Except String DestroyResp) :
    (∀ r, provider pid = .ok r →
      (r.result = some "ok" →
        delete_image pid provider =
          ⟨200, .obj [("success", .bool true), ("message", .str "Imagen eliminada")]⟩) ∧
      (r.result ≠ some "ok" →
        delete_image pid provider = ⟨400, errBody "No se pudo eliminar la imagen"⟩ ∧
        isErrorBody (delete_image pid provider).body = true)) ∧
    (∀ e, provider pid = .error e →
      delete_image pid provider = ⟨500, errBody e⟩) := by
  constructor
  · intro r hr
    constructor
    · intro hok
      simp [delete_image, hr, hok]
    · intro hno
      constructor <;> simp [delete_image, hr, hno, errBody, isErrorBody]
  · intro e he
    simp [delete_image, he]

/-- Witness for C5: a provider destroy response with status not found yields
400 with the fixed error body. -/
theorem delete_image_status_witness :
    delete_image "capturas/xyz123" (fun _ => .ok ⟨some "not found"⟩) =
      ⟨400, errBody "No se pudo eliminar la imagen"⟩ ∧
    isErrorBody (delete_image "capturas/xyz123" (fun _ => .ok ⟨some "not found"⟩)).body = true :=
  ((delete_image_status "capturas/xyz123" (fun _ => .ok ⟨some "not found"⟩)).1
    ⟨some "not found"⟩ rfl).2 (by decide)

/-- Claim C8: a request body strictly larger than 16 MiB is rejected with
413 and an error-string body before any handler logic runs, with no
provider call, for every request whatsoever; a body at or under the limit
is passed to the upload handler untouched by this limit. -/
theorem dispatch_max_content_length (contentLength : Nat) (req : UploadRequest)
    (provider : UploadCall → Except String ProviderUploadResp) :
    (MAX_CONTENT_LENGTH < contentLength →
      dispatchUpload contentLength req provider = (request_entity_too_large, []) ∧
      request_entity_too_large.status = 413 ∧
      isErrorBody request_entity_too_large.body = true) ∧
    (contentLength ≤ MAX_CONTENT_LENGTH →
      dispatchUpload contentLength req provider = upload req provider) := by
  constructor
  · intro h
    exact ⟨by simp [dispatchUpload, h], rfl, rfl⟩
  · intro h
    simp [dispatchUpload, Nat.not_lt.mpr h]

/-- Witness for C8: a body one byte over the limit is rejected with 413 and
no provider call, even though its filename is invalid too. -/
theorem dispatch_max_content_length_witness :
    dispatchUpload (16 * 1024 * 1024 + 1) ⟨[("file", ⟨"document.pdf", [0]⟩)]⟩
        (fun _ => .error "x") = (request_entity_too_large, []) ∧
    request_entity_too_large.status = 413 ∧
    isErrorBody request_entity_too_large.body = true :=
  (dispatch_max_content_length (16 * 1024 * 1024 + 1) ⟨[("file", ⟨"document.pdf", [0]⟩)]⟩
    (fun _ => .error "x")).1 (by decide)

/-- takeWhile keeps exactly the prefix before the first failing element. -/
theorem takeWhileAppendOfAll {α : Type} (p : α → Bool) (l₁ l₂ : List α) (a : α)
    (h1 : ∀ x ∈ l₁, p x = true) (h2 : p a = false) :
    (l₁ ++ a :: l₂).takeWhile p = l₁ := by
  induction l₁ with
  | nil => simp [List.takeWhile_cons, h2]
  | cons x xs ih =>
    have hx : p x = true := h1 x (List.mem_cons_self _ _)
    simp [List.takeWhile_cons, hx,
      ih (fun y hy => h1 y (List.mem_cons_of_mem _ hy))]

/-- Claim C9: for a filename with at least one dot, extension validation
depends only on the substring after the last dot: for any prefix s and any
dot-free extension e, the verdict on the filename obtained by joining s and
e with a dot is exactly membership of the lowercased e in the allowed set,
independent of s (so a name such as archive.tar.png is accepted and a name
such as photo.png.exe is rejected, whatever comes before the last dot). -/
theorem allowed_file_last_ext (s e : String) (he : e.toList.contains '.' = false) :
    allowed_file (s ++ "." ++ e) = ALLOWED_EXTENSIONS.contains (lowerStr e) := by
  have hnotmem : '.' ∉ e.toList := by simpa using he
  have hdata : (s ++ "." ++ e).toList = s.toList ++ '.' :: e.toList := by
    show (s ++ "." ++ e).data = s.data ++ '.' :: e.data
    rw [String.data_append, String.data_append, List.append_assoc]
    rfl
  have hext : extAfterLastDot (s ++ "." ++ e) = e := by
    unfold extAfterLastDot
    rw [hdata]
    have hrev : (s.toList ++ '.' :: e.toList).reverse =
        e.toList.reverse ++ '.' :: s.toList.reverse := by simp
    rw [hrev, takeWhileAppendOfAll _ _ _ _
      (fun x hx => bne_iff_ne.mpr
        (fun hxe => hnotmem (by rw [← hxe]; exact List.mem_reverse.mp hx)))
      (by decide)]
    rw [List.reverse_reverse]
    rfl
  have hcd : containsDot (s ++ "." ++ e) = true := by
    rw [containsDot, hdata]
    simp
  rw [allowed_file, hcd, hext]
  simp

/-- Witness for C9: archive.tar.png is accepted and photo.png.exe is
rejected, each verdict given by the last extension alone. -/
theorem allowed_file_last_ext_witness :
    allowed_file ("archive.tar" ++ "." ++ "png") = ALLOWED_EXTENSIONS.contains (lowerStr "png") ∧
    allowed_file ("photo.png" ++ "." ++ "exe") = ALLOWED_EXTENSIONS.contains (lowerStr "exe") ∧
    allowed_file "archive.tar.png" = true ∧
    allowed_file "photo.png.exe" = false :=
  ⟨allowed_file_last_ext "archive.tar" "png" (by decide),
   allowed_file_last_ext "photo.png" "exe" (by decide),
   by decide, by decide⟩
